import Mathlib

/-
Shallow embedding of the query-routing and multi-engine synthesis workflow of
the YouTube-Videos-Trend-Analysis repository.

Embedded source files:
  - src/src/agents/query_router.py   (QueryType, QueryClassification, QueryRouter)
  - src/src/agents/orchestrator.py   (AgentState, MultiAgentOrchestrator)
  - src/src/api/models.py            (QueryRequest validation)

Modelling conventions:
  - Python dictionaries of fixed shape become structures.  A key that can be
    absent, or present with value None, is an Option field (none = absent or
    None); when the absent/None distinction is observable it is modelled with
    nested Options and noted at the field.
  - External calls (the classification chain, the two engine process_query
    calls, the synthesis LLM) are oracles of type String to Except String _ ;
    Except.error e models a raised Python exception whose str() is e.
  - The LangGraph StateGraph is executed sequentially (one node at a time,
    exactly the edges added in MultiAgentOrchestrator._build_graph); the run
    also returns a trace of events so ordering properties can be stated.
  - graph.invoke writes every key of the initial state dictionary into the
    state channels, so every key is present in the returned final state; a
    later dict.get(key, default) therefore returns the stored value (possibly
    None), never the default.
-/

namespace YTTrends

/-- QueryType enum (src/src/agents/query_router.py, class QueryType). -/
inductive QueryType where
  | sql
  | vector
  | hybrid
  | unknown
deriving DecidableEq, Repr

/-- The .value of a QueryType member (the string payload of the Python enum). -/
def QueryType.value : QueryType → String
  | .sql => "sql"
  | .vector => "vector"
  | .hybrid => "hybrid"
  | .unknown => "unknown"

/-- QueryClassification (pydantic model in query_router.py).  Pydantic
validation guarantees query_type is one of the four enum members; confidence
is bounded in [0,1] by the field constraints (not needed by the claims). -/
structure QueryClassification where
  query_type : QueryType
  confidence : Rat
  reasoning : String
  suggested_agent : String
deriving DecidableEq, Repr

/-- QueryRouter.classify_query: invoke the classification chain; on any
exception return the default classification (query_router.py lines 152-186). -/
def classify_query (chain : String → Except String QueryClassification)
    (q : String) : QueryClassification :=
  match chain q with
  | .ok r => r
  | .error e =>
      { query_type := .unknown
        confidence := 0
        reasoning := "Classification failed: " ++ e
        suggested_agent := "none" }

/-- QueryRouter._determine_execution_strategy (query_router.py lines 230-247). -/
def determine_execution_strategy (qt : QueryType) : String :=
  match qt with
  | .sql => "single_agent"
  | .vector => "single_agent"
  | .hybrid => "multi_agent_parallel"
  | .unknown => "fallback"

/-- The classification sub-dictionary of routing_info.  The orchestrator error
fallback builds it with only the type key, so the other keys are Options
(none = key absent). -/
structure ClassificationInfo where
  type : String
  confidence : Option Rat := none
  reasoning : Option String := none
  suggested_agent : Option String := none
deriving DecidableEq, Repr

/-- The routing_info dictionary built by QueryRouter.route_query, and by the
orchestrator error fallback (which omits query and execution_strategy). -/
structure RoutingInfo where
  query : Option String := none
  classification : ClassificationInfo
  agents : List String
  execution_strategy : Option String := none
deriving DecidableEq, Repr

/-- QueryRouter.route_query (query_router.py lines 188-228): classify, then
map the type to the agent list and build the routing_info dictionary. -/
def route_query (chain : String → Except String QueryClassification)
    (q : String) : RoutingInfo :=
  let c := classify_query chain q
  let agents_to_use : List String :=
    if c.query_type = QueryType.sql then ["sql"]
    else if c.query_type = QueryType.vector then ["vector"]
    else if c.query_type = QueryType.hybrid then ["sql", "vector"]
    else []
  { query := some q
    classification :=
      { type := c.query_type.value
        confidence := some c.confidence
        reasoning := some c.reasoning
        suggested_agent := some c.suggested_agent }
    agents := agents_to_use
    execution_strategy := some (determine_execution_strategy c.query_type) }

/-- An agent result dictionary as seen by the orchestrator.  The data field
models the data key of the dictionary:
  none            = the data key is absent (the orchestrator exception and
                    agent-not-available dictionaries carry only success/error),
  some none       = data is present and is Python None (BaseAgent.format_response
                    with data=None, the failure shape of both agents),
  some (some a)   = data is a dictionary whose answer entry is a (both agents
                    always put an answer key in their success data).
error is the error key (none = absent or None; every failure shape carries a
string here). -/
structure EngineResult where
  success : Bool
  data : Option (Option String) := none
  error : Option String := none
deriving DecidableEq, Repr

/-- The metadata dictionary built by _synthesize_response. -/
structure SynthesisMetadata where
  agents_used : List String
  query_type : String
  confidence : Rat
deriving DecidableEq, Repr

/-- AgentState (orchestrator.py lines 17-28).  routing_info none models the
initial empty dictionary; metadata none models the initial empty dictionary. -/
structure AgentState where
  query : String
  routing_info : Option RoutingInfo := none
  sql_result : Option EngineResult := none
  vector_result : Option EngineResult := none
  final_response : Option String := none
  error : Option String := none
  metadata : Option SynthesisMetadata := none
deriving DecidableEq, Repr

/-- The orchestrator with its external collaborators as oracles: the router
call self.router.route_query, the two agents (none = not in self.agents), and
the synthesis LLM self.llm.invoke (given the prompt, returning the content). -/
structure Orchestrator where
  router : String → Except String RoutingInfo
  sql_agent : Option (String → Except String EngineResult)
  vector_agent : Option (String → Except String EngineResult)
  llm : String → Except String String

/-- Events recorded while the workflow runs, for ordering properties.
classify marks the router call; sqlStart/sqlDone and vectorStart/vectorDone
bracket the external engine process_query calls (done covers both normal
return and a raised exception, either way the call has completed). -/
inductive Ev where
  | classify
  | sqlStart
  | sqlDone
  | vectorStart
  | vectorDone
  | synthesize
deriving DecidableEq, Repr

/-- The initial state built in process_query (orchestrator.py lines 435-443). -/
def initial_state (q : String) : AgentState :=
  { query := q }

/-- MultiAgentOrchestrator._route_query (orchestrator.py lines 188-214): call
the router; on exception record an error string and the fallback routing_info
with empty agents and a classification holding only type unknown. -/
def route_node (o : Orchestrator) (s : AgentState) : AgentState × List Ev :=
  match o.router s.query with
  | .ok ri => ({ s with routing_info := some ri }, [Ev.classify])
  | .error e =>
      ({ s with
          error := some ("Routing failed: " ++ e)
          routing_info := some { classification := { type := "unknown" }, agents := [] } },
       [Ev.classify])

/-- MultiAgentOrchestrator._routing_decision (orchestrator.py lines 216-240).
The Python truthiness test on state error is modelled by isSome: the only
value ever written there is the non-empty string "Routing failed: ...". -/
def routing_decision (s : AgentState) : String :=
  if s.error.isSome then "end"
  else
    let agents := (s.routing_info.map RoutingInfo.agents).getD []
    if agents = [] then "end"
    else if "sql" ∈ agents ∧ "vector" ∈ agents then "both"
    else if "sql" ∈ agents then "sql"
    else if "vector" ∈ agents then "vector"
    else "end"

/-- The try/except around an engine call inside _execute_sql_agent and
_execute_vector_agent: a raised exception becomes the dictionary with
success False and error str(e) (and no data key). -/
def engine_call_result (f : String → Except String EngineResult)
    (q : String) : EngineResult :=
  match f q with
  | .ok r => r
  | .error e => { success := false, error := some e }

/-- MultiAgentOrchestrator._execute_sql_agent (orchestrator.py lines 242-271). -/
def execute_sql_agent (o : Orchestrator) (s : AgentState) : AgentState × List Ev :=
  match o.sql_agent with
  | some f =>
      ({ s with sql_result := some (engine_call_result f s.query) },
       [Ev.sqlStart, Ev.sqlDone])
  | none =>
      ({ s with sql_result := some { success := false, error := some "SQL Agent not available" } },
       [])

/-- MultiAgentOrchestrator._execute_vector_agent (orchestrator.py lines 273-302). -/
def execute_vector_agent (o : Orchestrator) (s : AgentState) : AgentState × List Ev :=
  match o.vector_agent with
  | some g =>
      ({ s with vector_result := some (engine_call_result g s.query) },
       [Ev.vectorStart, Ev.vectorDone])
  | none =>
      ({ s with vector_result := some { success := false, error := some "Vector Agent not available" } },
       [])

/-- MultiAgentOrchestrator._check_if_hybrid (orchestrator.py lines 304-319). -/
def check_if_hybrid (s : AgentState) : String :=
  let agents := (s.routing_info.map RoutingInfo.agents).getD []
  if "vector" ∈ agents ∧ s.vector_result.isNone then "vector_agent" else "synthesize"

/-- The Python expression r.get("data", empty).get("answer", dflt) used in
_synthesize_hybrid_response (orchestrator.py lines 394-395): an absent data
key yields the default through the empty dictionary, a data value of None
raises AttributeError (modelled as Except.error), a data dictionary yields
its answer. -/
def data_answer (d : Option (Option String)) (dflt : String) : Except String String :=
  match d with
  | none => .ok dflt
  | some none => .error "AttributeError: NoneType object has no attribute get"
  | some (some a) => .ok a

/-- The Python expression r["data"]["answer"] used in _synthesize_response
(orchestrator.py lines 340 and 346): an absent data key raises KeyError, a
data value of None raises TypeError, otherwise the answer is returned. -/
def data_answer_strict (d : Option (Option String)) : Except String String :=
  match d with
  | none => .error "KeyError: data"
  | some none => .error "TypeError: NoneType object is not subscriptable"
  | some (some a) => .ok a

/-- The synthesis prompt f-string of _synthesize_hybrid_response
(orchestrator.py lines 397-413). -/
def hybrid_prompt (query sql_answer vector_answer : String) : String :=
  "You are a YouTube trends analyst. Synthesize the following results into a coherent, helpful response.\n\nUser Query: "
    ++ query
    ++ "\n\nStructured Data Analysis (SQL):\n"
    ++ sql_answer
    ++ "\n\nSemantic Search Results (Vector):\n"
    ++ vector_answer
    ++ "\n\nProvide a unified response that:\n1. Combines insights from both sources\n2. Answers the user\x27s question comprehensively\n3. Highlights key findings\n4. Keeps it concise and natural\n\nResponse:"

/-- MultiAgentOrchestrator._synthesize_hybrid_response (orchestrator.py lines
376-420).  The except block returns the f-string
"SQL Analysis: ...sql_answer...\n\nSemantic Search: ...vector_answer..."; but
when the exception was raised while computing sql_answer (or vector_answer)
at lines 394-395, that local variable was never bound, so the f-string itself
raises NameError, which escapes this function (modelled as Except.error with
the NameError message). -/
def synthesize_hybrid_response (o : Orchestrator) (query : String)
    (sql_result vector_result : EngineResult) : Except String String :=
  match data_answer sql_result.data "No SQL result" with
  | .error _ => .error "name \x27sql_answer\x27 is not defined"
  | .ok sql_answer =>
    match data_answer vector_result.data "No vector result" with
    | .error _ => .error "name \x27vector_answer\x27 is not defined"
    | .ok vector_answer =>
      match o.llm (hybrid_prompt query sql_answer vector_answer) with
      | .ok content => .ok content
      | .error _ =>
          .ok ("SQL Analysis: " ++ sql_answer ++ "\n\nSemantic Search: " ++ vector_answer)

/-- The final_response computation of _synthesize_response (orchestrator.py
lines 334-359): one-agent passthrough (verbatim answer on success, the
"Error: ..." string otherwise), two-agent hybrid synthesis, or the fixed
apologetic fallback when neither result is present.  Except.error models an
exception raised while computing the branch. -/
def compute_final_response (o : Orchestrator) (s : AgentState) : Except String String :=
  match s.sql_result, s.vector_result with
  | some sqlr, none =>
      if sqlr.success then data_answer_strict sqlr.data
      else .ok ("Error: " ++ sqlr.error.getD "Unknown error")
  | none, some vecr =>
      if vecr.success then data_answer_strict vecr.data
      else .ok ("Error: " ++ vecr.error.getD "Unknown error")
  | some sqlr, some vecr => synthesize_hybrid_response o s.query sqlr vecr
  | none, none => .ok "I couldn\x27t process your query. Please try rephrasing."

/-- The metadata dictionary literal of _synthesize_response (orchestrator.py
lines 362-366).  The agents list is read with .get (default empty), but the
classification type and confidence are read with bracket access, so an absent
classification or confidence key raises (Except.error). -/
def compute_metadata (s : AgentState) : Except String SynthesisMetadata :=
  match s.routing_info with
  | none => .error "KeyError: classification"
  | some ri =>
      match ri.classification.confidence with
      | none => .error "KeyError: confidence"
      | some c =>
          .ok { agents_used := ri.agents
                query_type := ri.classification.type
                confidence := c }

/-- MultiAgentOrchestrator._synthesize_response (orchestrator.py lines
321-374).  The single try block covers both the final_response assignment and
the metadata assignment; state mutations made before an exception persist, so
an exception while building metadata leaves metadata untouched but overwrites
the already-assigned final_response with the "Error synthesizing response:"
string. -/
def synthesize_node (o : Orchestrator) (s : AgentState) : AgentState × List Ev :=
  match compute_final_response o s with
  | .error e =>
      ({ s with final_response := some ("Error synthesizing response: " ++ e) },
       [Ev.synthesize])
  | .ok ans =>
      match compute_metadata s with
      | .error e =>
          ({ s with final_response := some ("Error synthesizing response: " ++ e) },
           [Ev.synthesize])
      | .ok m =>
          ({ s with final_response := some ans, metadata := some m },
           [Ev.synthesize])

/-- One run of the compiled LangGraph workflow (orchestrator.py lines
140-186): route, then the conditional edge map (sql / vector / both / end),
the conditional edge from sql_agent via _check_if_hybrid, the unconditional
edge from vector_agent to synthesize, and synthesize to END.  Returns the
final state together with the event trace. -/
def run_workflow (o : Orchestrator) (q : String) : AgentState × List Ev :=
  let r1 := route_node o (initial_state q)
  let d := routing_decision r1.1
  if d = "sql" ∨ d = "both" then
    let r2 := execute_sql_agent o r1.1
    if check_if_hybrid r2.1 = "vector_agent" then
      let r3 := execute_vector_agent o r2.1
      let r4 := synthesize_node o r3.1
      (r4.1, r1.2 ++ (r2.2 ++ (r3.2 ++ r4.2)))
    else
      let r3 := synthesize_node o r2.1
      (r3.1, r1.2 ++ (r2.2 ++ r3.2))
  else if d = "vector" then
    let r2 := execute_vector_agent o r1.1
    let r3 := synthesize_node o r2.1
    (r3.1, r1.2 ++ (r2.2 ++ r3.2))
  else
    (r1.1, r1.2)

/-- The final workflow state of one query. -/
def final_state (o : Orchestrator) (q : String) : AgentState :=
  (run_workflow o q).1

/-- The event trace of one query. -/
def run_trace (o : Orchestrator) (q : String) : List Ev :=
  (run_workflow o q).2

/-- The response dictionary built by MultiAgentOrchestrator.process_query
(orchestrator.py lines 450-462) on the non-fatal path.  Every key of the
initial state is present in the LangGraph output, so the .get reads return
the stored values; sql_result and vector_result are included only when
present (the dictionaries are never empty, so truthiness = presence). -/
structure FinalResponse where
  query : String
  answer : Option String
  metadata : Option SynthesisMetadata
  routing : Option RoutingInfo
  success : Bool
  sql_result : Option EngineResult := none
  vector_result : Option EngineResult := none
deriving DecidableEq, Repr

/-- MultiAgentOrchestrator.process_query (orchestrator.py lines 422-475),
non-fatal path: run the workflow and package the final state.  success is the
Python test final_state.get("final_response") is not None. -/
def process_query (o : Orchestrator) (q : String) : FinalResponse :=
  let fs := final_state o q
  { query := q
    answer := fs.final_response
    metadata := fs.metadata
    routing := fs.routing_info
    success := fs.final_response.isSome
    sql_result := fs.sql_result
    vector_result := fs.vector_result }

/-- The pydantic validation of QueryRequest.query (src/src/api/models.py
lines 7-10): a string field with min_length 1 and no trimming. -/
def query_request_valid (query : String) : Bool :=
  1 ≤ query.length

/-! Reduction lemmas describing one workflow run on each routing outcome. -/

/-- The synthesis node always emits exactly its own event. -/
theorem synthesize_node_snd (o : Orchestrator) (s : AgentState) :
    (synthesize_node o s).2 = [Ev.synthesize] := by
  unfold synthesize_node
  rcases compute_final_response o s with e | a
  · rfl
  · rcases compute_metadata s with e | m <;> rfl

/-- When routing succeeds and yields both agents, the workflow runs the sql
agent, then the vector agent, then synthesis, in that order. -/
theorem run_workflow_hybrid_eq
    (o : Orchestrator) (q : String) (ri : RoutingInfo)
    (f g : String → Except String EngineResult)
    (hro : o.router q = Except.ok ri)
    (hs : "sql" ∈ ri.agents) (hv : "vector" ∈ ri.agents)
    (hsa : o.sql_agent = some f) (hva : o.vector_agent = some g) :
    run_workflow o q =
      ((synthesize_node o
          { query := q
            routing_info := some ri
            sql_result := some (engine_call_result f q)
            vector_result := some (engine_call_result g q) }).1,
       [Ev.classify, Ev.sqlStart, Ev.sqlDone, Ev.vectorStart, Ev.vectorDone, Ev.synthesize]) := by
  have hne : ri.agents ≠ [] := List.ne_nil_of_mem hs
  simp [run_workflow, route_node, initial_state, hro, routing_decision, hne, hs, hv,
        execute_sql_agent, hsa, check_if_hybrid, execute_vector_agent, hva,
        synthesize_node_snd]

/-- When routing succeeds and yields only the sql agent, the workflow runs
the sql agent and then synthesis. -/
theorem run_workflow_sql_only_eq
    (o : Orchestrator) (q : String) (ri : RoutingInfo)
    (f : String → Except String EngineResult)
    (hro : o.router q = Except.ok ri)
    (hs : "sql" ∈ ri.agents) (hv : "vector" ∉ ri.agents)
    (hsa : o.sql_agent = some f) :
    run_workflow o q =
      ((synthesize_node o
          { query := q
            routing_info := some ri
            sql_result := some (engine_call_result f q) }).1,
       [Ev.classify, Ev.sqlStart, Ev.sqlDone, Ev.synthesize]) := by
  have hne : ri.agents ≠ [] := List.ne_nil_of_mem hs
  simp [run_workflow, route_node, initial_state, hro, routing_decision, hne, hs, hv,
        execute_sql_agent, hsa, check_if_hybrid, synthesize_node_snd]

/-- When routing succeeds and yields only the vector agent, the workflow runs
the vector agent and then synthesis. -/
theorem run_workflow_vector_only_eq
    (o : Orchestrator) (q : String) (ri : RoutingInfo)
    (g : String → Except String EngineResult)
    (hro : o.router q = Except.ok ri)
    (hs : "sql" ∉ ri.agents) (hv : "vector" ∈ ri.agents)
    (hva : o.vector_agent = some g) :
    run_workflow o q =
      ((synthesize_node o
          { query := q
            routing_info := some ri
            vector_result := some (engine_call_result g q) }).1,
       [Ev.classify, Ev.vectorStart, Ev.vectorDone, Ev.synthesize]) := by
  have hne : ri.agents ≠ [] := List.ne_nil_of_mem hv
  simp [run_workflow, route_node, initial_state, hro, routing_decision, hne, hs, hv,
        execute_vector_agent, hva, synthesize_node_snd]

/-- When routing succeeds with an empty agent list, the workflow reaches END
straight from routing: no engine runs and synthesis never runs. -/
theorem run_workflow_empty_eq
    (o : Orchestrator) (q : String) (ri : RoutingInfo)
    (hro : o.router q = Except.ok ri)
    (hag : ri.agents = []) :
    run_workflow o q =
      ({ query := q, routing_info := some ri }, [Ev.classify]) := by
  simp [run_workflow, route_node, initial_state, hro, routing_decision, hag]

/-- The synthesis node writes only final_response and metadata; the query,
routing info and engine results pass through unchanged. -/
theorem synthesize_node_preserves (o : Orchestrator) (s : AgentState) :
    (synthesize_node o s).1.sql_result = s.sql_result
    ∧ (synthesize_node o s).1.vector_result = s.vector_result
    ∧ (synthesize_node o s).1.routing_info = s.routing_info
    ∧ (synthesize_node o s).1.query = s.query := by
  unfold synthesize_node
  rcases compute_final_response o s with e | a
  · exact ⟨rfl, rfl, rfl, rfl⟩
  · rcases compute_metadata s with e | m <;> exact ⟨rfl, rfl, rfl, rfl⟩

/-- A well-shaped agent result: data is never present-as-None, and a success
carries a data dictionary with an answer.  Both agents produce only such
results through BaseAgent.format_response when their data argument is a
dictionary; the failure shape with data None is exactly the one this
predicate excludes. -/
def well_formed_result (r : EngineResult) : Prop :=
  r.data ≠ some none ∧ (r.success = true → ∃ a, r.data = some (some a))

/-- The guarded engine call preserves well-formedness: a raised exception is
converted to a failure dictionary without a data key, which is well-shaped. -/
theorem engine_call_result_wf (f : String → Except String EngineResult) (q : String)
    (h : ∀ r, f q = Except.ok r → well_formed_result r) :
    well_formed_result (engine_call_result f q) := by
  unfold engine_call_result
  rcases hf : f q with e | r
  · exact ⟨by simp, by simp⟩
  · exact h r hf

/-- On a result whose data key is not present-as-None, the guarded read used
by the hybrid synthesiser returns normally. -/
theorem data_answer_ok (d : Option (Option String)) (hd : d ≠ some none) (dflt : String) :
    ∃ s, data_answer d dflt = Except.ok s := by
  rcases d with _ | (_ | a)
  · exact ⟨dflt, rfl⟩
  · exact absurd rfl hd
  · exact ⟨a, rfl⟩

/-- When every engine result on the state is well-shaped, the final_response
computation of the synthesis node never raises. -/
theorem compute_final_response_ok_of_wf (o : Orchestrator) (s : AgentState)
    (hs : ∀ r, s.sql_result = some r → well_formed_result r)
    (hv : ∀ r, s.vector_result = some r → well_formed_result r) :
    ∃ a, compute_final_response o s = Except.ok a := by
  rcases hsr : s.sql_result with _ | r <;> rcases hvr : s.vector_result with _ | v
  · refine ⟨"I couldn\x27t process your query. Please try rephrasing.", ?_⟩
    simp [compute_final_response, hsr, hvr]
  · have hw := hv v hvr
    by_cases hsucc : v.success = true
    · obtain ⟨a, ha⟩ := hw.2 hsucc
      refine ⟨a, ?_⟩
      simp [compute_final_response, hsr, hvr, hsucc, ha, data_answer_strict]
    · refine ⟨"Error: " ++ v.error.getD "Unknown error", ?_⟩
      simp [compute_final_response, hsr, hvr, hsucc]
  · have hw := hs r hsr
    by_cases hsucc : r.success = true
    · obtain ⟨a, ha⟩ := hw.2 hsucc
      refine ⟨a, ?_⟩
      simp [compute_final_response, hsr, hvr, hsucc, ha, data_answer_strict]
    · refine ⟨"Error: " ++ r.error.getD "Unknown error", ?_⟩
      simp [compute_final_response, hsr, hvr, hsucc]
  · obtain ⟨a, ha⟩ := data_answer_ok r.data (hs r hsr).1 "No SQL result"
    obtain ⟨b, hb⟩ := data_answer_ok v.data (hv v hvr).1 "No vector result"
    rcases hl : o.llm (hybrid_prompt s.query a b) with e | content
    · refine ⟨"SQL Analysis: " ++ a ++ "\n\nSemantic Search: " ++ b, ?_⟩
      simp [compute_final_response, hsr, hvr, synthesize_hybrid_response, ha, hb, hl]
    · refine ⟨content, ?_⟩
      simp [compute_final_response, hsr, hvr, synthesize_hybrid_response, ha, hb, hl]

/-- Every run begins with the router call: the classification is invoked on
every query, whatever the query text. -/
theorem classify_mem_run_trace (o : Orchestrator) (q : String) :
    Ev.classify ∈ run_trace o q := by
  unfold run_trace run_workflow
  rcases h : o.router q with e | ri
  · simp [route_node, initial_state, h, routing_decision]
  · simp only [route_node, initial_state, h]
    split_ifs <;> simp

/-! Claim C2. -/

/-- C2: for every hybrid query (the routed engine set contains both engines
and both agents are available), the structured engine call completes, with
success or failure, before the semantic engine call begins: the run trace is
exactly classify, sqlStart, sqlDone, vectorStart, vectorDone, synthesize, and
the sql completion event sits at a strictly earlier position than the vector
start event. -/
theorem c2_sql_completes_before_vector_starts
    (o : Orchestrator) (q : String) (ri : RoutingInfo)
    (f g : String → Except String EngineResult)
    (hro : o.router q = Except.ok ri)
    (hs : "sql" ∈ ri.agents) (hv : "vector" ∈ ri.agents)
    (hsa : o.sql_agent = some f) (hva : o.vector_agent = some g) :
    run_trace o q =
      [Ev.classify, Ev.sqlStart, Ev.sqlDone, Ev.vectorStart, Ev.vectorDone, Ev.synthesize]
    ∧ List.indexOf Ev.sqlDone (run_trace o q) < List.indexOf Ev.vectorStart (run_trace o q) := by
  have h := run_workflow_hybrid_eq o q ri f g hro hs hv hsa hva
  have ht : run_trace o q =
      [Ev.classify, Ev.sqlStart, Ev.sqlDone, Ev.vectorStart, Ev.vectorDone, Ev.synthesize] := by
    simp only [run_trace, h]
  exact ⟨ht, by rw [ht]; decide⟩

/-- Hybrid classification chain used to instantiate C2. -/
def chainC2 : String → Except String QueryClassification := fun _ =>
  Except.ok { query_type := QueryType.hybrid, confidence := 1,
              reasoning := "needs statistics and semantic search", suggested_agent := "both" }

/-- Concrete orchestrator used to instantiate C2. -/
def orchC2 : Orchestrator :=
  { router := fun s => Except.ok (route_query chainC2 s)
    sql_agent := some (fun _ => Except.ok { success := true, data := some (some "Gaming leads with 321 videos") })
    vector_agent := some (fun _ => Except.ok { success := true, data := some (some "Found 12 Minecraft videos") })
    llm := fun _ => Except.ok "combined insights" }

theorem c2_witness :
    run_trace orchC2 "most viewed videos about cooking" =
      [Ev.classify, Ev.sqlStart, Ev.sqlDone, Ev.vectorStart, Ev.vectorDone, Ev.synthesize] :=
  (c2_sql_completes_before_vector_starts orchC2 "most viewed videos about cooking" _ _ _
    rfl (by decide) (by decide) rfl rfl).1

/-! Claim C3. -/

/-- C3: on every route that invokes an engine — sql-only, vector-only or
hybrid — an exception raised by an engine process_query call never escapes
the agent-execution node: it is stored on the state as a failure result whose
error is the exception message (and no data key), the remaining required
engine (if any) still runs, and the synthesis step still executes. -/
theorem c3_engine_exception_caught_and_flow_continues
    (o : Orchestrator) (q : String) (ri : RoutingInfo)
    (f g : String → Except String EngineResult)
    (hro : o.router q = Except.ok ri) :
    (o.sql_agent = some f → "sql" ∈ ri.agents → "vector" ∉ ri.agents →
      (∀ e, f q = Except.error e →
        (final_state o q).sql_result = some { success := false, data := none, error := some e })
      ∧ Ev.synthesize ∈ run_trace o q)
    ∧ (o.vector_agent = some g → "sql" ∉ ri.agents → "vector" ∈ ri.agents →
      (∀ e, g q = Except.error e →
        (final_state o q).vector_result = some { success := false, data := none, error := some e })
      ∧ Ev.synthesize ∈ run_trace o q)
    ∧ (o.sql_agent = some f → o.vector_agent = some g →
       "sql" ∈ ri.agents → "vector" ∈ ri.agents →
      (∀ e, f q = Except.error e →
        (final_state o q).sql_result = some { success := false, data := none, error := some e })
      ∧ (∀ e, g q = Except.error e →
        (final_state o q).vector_result = some { success := false, data := none, error := some e })
      ∧ Ev.vectorStart ∈ run_trace o q
      ∧ Ev.synthesize ∈ run_trace o q) := by
  refine ⟨?_, ?_, ?_⟩
  · intro hsa hs hv
    have h := run_workflow_sql_only_eq o q ri f hro hs hv hsa
    have hfs : final_state o q =
        (synthesize_node o
          { query := q
            routing_info := some ri
            sql_result := some (engine_call_result f q) }).1 := by
      simp only [final_state, h]
    constructor
    · intro e he
      rw [hfs, (synthesize_node_preserves o _).1]
      simp [engine_call_result, he]
    · simp only [run_trace, h]
      decide
  · intro hva hs hv
    have h := run_workflow_vector_only_eq o q ri g hro hs hv hva
    have hfs : final_state o q =
        (synthesize_node o
          { query := q
            routing_info := some ri
            vector_result := some (engine_call_result g q) }).1 := by
      simp only [final_state, h]
    constructor
    · intro e he
      rw [hfs, (synthesize_node_preserves o _).2.1]
      simp [engine_call_result, he]
    · simp only [run_trace, h]
      decide
  · intro hsa hva hs hv
    have h := run_workflow_hybrid_eq o q ri f g hro hs hv hsa hva
    have hfs : final_state o q =
        (synthesize_node o
          { query := q
            routing_info := some ri
            sql_result := some (engine_call_result f q)
            vector_result := some (engine_call_result g q) }).1 := by
      simp only [final_state, h]
    refine ⟨?_, ?_, ?_, ?_⟩
    · intro e he
      rw [hfs, (synthesize_node_preserves o _).1]
      simp [engine_call_result, he]
    · intro e he
      rw [hfs, (synthesize_node_preserves o _).2.1]
      simp [engine_call_result, he]
    · simp only [run_trace, h]
      decide
    · simp only [run_trace, h]
      decide

/-- Hybrid classification chain used to instantiate C3. -/
def chainC3 : String → Except String QueryClassification := fun _ =>
  Except.ok { query_type := QueryType.hybrid, confidence := 1,
              reasoning := "content search with engagement filter", suggested_agent := "both" }

/-- Concrete orchestrator used to instantiate the hybrid case of C3: the sql
engine raises and the vector engine succeeds. -/
def orchC3 : Orchestrator :=
  { router := fun s => Except.ok (route_query chainC3 s)
    sql_agent := some (fun _ => Except.error "database connection lost")
    vector_agent := some (fun _ => Except.ok { success := true, data := some (some "Found 3 fitness videos") })
    llm := fun _ => Except.ok "combined" }

/-- Semantic classification chain used to instantiate the vector-only case of
C3. -/
def chainC3v : String → Except String QueryClassification := fun _ =>
  Except.ok { query_type := QueryType.vector, confidence := 1,
              reasoning := "topic search", suggested_agent := "vector" }

/-- Concrete orchestrator used to instantiate the vector-only case of C3: the
single routed engine raises. -/
def orchC3v : Orchestrator :=
  { router := fun s => Except.ok (route_query chainC3v s)
    sql_agent := some (fun _ => Except.ok { success := true, data := some (some "unused") })
    vector_agent := some (fun _ => Except.error "vector index offline")
    llm := fun _ => Except.ok "unused" }

theorem c3_witness :
    ((final_state orchC3 "popular fitness videos").sql_result
        = some { success := false, data := none, error := some "database connection lost" }
      ∧ Ev.vectorStart ∈ run_trace orchC3 "popular fitness videos"
      ∧ Ev.synthesize ∈ run_trace orchC3 "popular fitness videos")
    ∧ ((final_state orchC3v "find cat videos").vector_result
        = some { success := false, data := none, error := some "vector index offline" }
      ∧ Ev.synthesize ∈ run_trace orchC3v "find cat videos") := by
  have h1 := (c3_engine_exception_caught_and_flow_continues orchC3 "popular fitness videos"
    (route_query chainC3 "popular fitness videos")
    (fun _ => Except.error "database connection lost")
    (fun _ => Except.ok { success := true, data := some (some "Found 3 fitness videos") })
    rfl).2.2 rfl rfl (by decide) (by decide)
  have h2 := (c3_engine_exception_caught_and_flow_continues orchC3v "find cat videos"
    (route_query chainC3v "find cat videos")
    (fun _ => Except.ok { success := true, data := some (some "unused") })
    (fun _ => Except.error "vector index offline")
    rfl).2.1 rfl (by decide) (by decide)
  exact ⟨⟨h1.1 "database connection lost" rfl, h1.2.2.1, h1.2.2.2⟩,
         ⟨h2.1 "vector index offline" rfl, h2.2⟩⟩

/-! Claim C7. -/

/-- C7: when the classification chain raises, classify_query does not raise:
it returns the degraded classification with type unknown, confidence 0 and
reasoning "Classification failed: cause"; route_query then maps it to the
empty agent list, and a workflow driven by this router reaches END straight
from routing (the no-engine terminal path: trace is classify only). -/
theorem c7_classification_failure_degrades_to_unknown
    (chain : String → Except String QueryClassification) (q e : String)
    (hc : chain q = Except.error e) :
    classify_query chain q =
      { query_type := QueryType.unknown, confidence := 0,
        reasoning := "Classification failed: " ++ e, suggested_agent := "none" }
    ∧ (route_query chain q).agents = []
    ∧ (route_query chain q).classification.type = "unknown"
    ∧ ∀ (sa va : Option (String → Except String EngineResult)) (llm : String → Except String String),
        run_trace
          { router := fun s => Except.ok (route_query chain s)
            sql_agent := sa, vector_agent := va, llm := llm } q = [Ev.classify] := by
  have h1 : classify_query chain q =
      { query_type := QueryType.unknown, confidence := 0,
        reasoning := "Classification failed: " ++ e, suggested_agent := "none" } := by
    simp [classify_query, hc]
  have hag : (route_query chain q).agents = [] := by
    simp [route_query, h1]
  refine ⟨h1, hag, ?_, ?_⟩
  · simp [route_query, h1, QueryType.value]
  · intro sa va llm
    have h := run_workflow_empty_eq
      { router := fun s => Except.ok (route_query chain s)
        sql_agent := sa, vector_agent := va, llm := llm } q (route_query chain q) rfl hag
    simp only [run_trace, h]

theorem c7_witness :
    classify_query (fun _ => Except.error "LLM timeout") "Which category trends most?" =
      { query_type := QueryType.unknown, confidence := 0,
        reasoning := "Classification failed: LLM timeout", suggested_agent := "none" }
    ∧ (route_query (fun _ => Except.error "LLM timeout") "Which category trends most?").agents = [] := by
  have h := c7_classification_failure_degrades_to_unknown
    (fun _ => Except.error "LLM timeout") "Which category trends most?" "LLM timeout" rfl
  exact ⟨h.1, h.2.1⟩

/-! Claim C1. -/

/-- Unknown classification chain used to instantiate C1. -/
def chainC1 : String → Except String QueryClassification := fun _ =>
  Except.ok { query_type := QueryType.unknown, confidence := 0,
              reasoning := "out of scope", suggested_agent := "none" }

/-- Concrete orchestrator used to instantiate C1. -/
def orchC1 : Orchestrator :=
  { router := fun s => Except.ok (route_query chainC1 s)
    sql_agent := some (fun _ => Except.ok { success := true, data := some (some "A") })
    vector_agent := some (fun _ => Except.ok { success := true, data := some (some "B") })
    llm := fun _ => Except.ok "C" }

/-- C1 counterexample: on an unknown classification the workflow ends before
the synthesis node, so the returned answer is not the fixed apology string
(it is Python None) and the metadata dictionary stays empty, with no
agents_used key at all. -/
theorem c1_counterexample :
    (process_query orchC1 "tell me a story").answer
      ≠ some "I couldn\x27t process your query. Please try rephrasing."
    ∧ (process_query orchC1 "tell me a story").answer = none
    ∧ (process_query orchC1 "tell me a story").metadata = none := by
  decide

/-- C1 (amended): for every query whose classification comes out unknown, the
routed engine set is empty and the workflow reaches END straight from
routing, so process_query returns answer None (not the apology string, which
lives in the unreached synthesis node), an empty metadata dictionary, and
success false. -/
theorem c1_unknown_ends_before_synthesis
    (chain : String → Except String QueryClassification)
    (o : Orchestrator) (q : String)
    (hro : o.router q = Except.ok (route_query chain q))
    (hu : (classify_query chain q).query_type = QueryType.unknown) :
    (process_query o q).answer = none
    ∧ (process_query o q).metadata = none
    ∧ (process_query o q).success = false
    ∧ run_trace o q = [Ev.classify] := by
  have hag : (route_query chain q).agents = [] := by
    simp [route_query, hu]
  have h := run_workflow_empty_eq o q (route_query chain q) hro hag
  refine ⟨?_, ?_, ?_, ?_⟩ <;>
    simp [process_query, final_state, run_trace, h]

theorem c1_witness :
    (process_query orchC1 "recommend something fun").answer = none
    ∧ (process_query orchC1 "recommend something fun").success = false := by
  have h := c1_unknown_ends_before_synthesis chainC1 orchC1 "recommend something fun"
    rfl (by decide)
  exact ⟨h.1, h.2.2.1⟩

/-! Claim C6. -/

/-- C6: for a query classified as sql (the structured type), when the sql
engine returns a result, a success is passed through verbatim as the final
answer with metadata query_type "sql", and a failure yields the answer
"Error: " followed by the engine error. -/
theorem c6_structured_passthrough
    (chain : String → Except String QueryClassification)
    (o : Orchestrator) (q : String) (c : QueryClassification)
    (f : String → Except String EngineResult) (r : EngineResult)
    (hro : o.router q = Except.ok (route_query chain q))
    (hc : chain q = Except.ok c) (ht : c.query_type = QueryType.sql)
    (hsa : o.sql_agent = some f) (hfq : f q = Except.ok r) :
    (∀ a, r.success = true → r.data = some (some a) →
        (process_query o q).answer = some a
        ∧ (process_query o q).metadata =
            some { agents_used := ["sql"], query_type := "sql", confidence := c.confidence })
    ∧ (∀ msg, r.success = false → r.error = some msg →
        (process_query o q).answer = some ("Error: " ++ msg)) := by
  have hcq : classify_query chain q = c := by
    simp [classify_query, hc]
  have hri : route_query chain q =
      { query := some q
        classification :=
          { type := "sql", confidence := some c.confidence,
            reasoning := some c.reasoning, suggested_agent := some c.suggested_agent }
        agents := ["sql"]
        execution_strategy := some "single_agent" } := by
    simp [route_query, hcq, ht, QueryType.value, determine_execution_strategy]
  have hs : "sql" ∈ (route_query chain q).agents := by
    simp [hri]
  have hv : "vector" ∉ (route_query chain q).agents := by
    simp [hri]
  have h := run_workflow_sql_only_eq o q (route_query chain q) f hro hs hv hsa
  have hecr : engine_call_result f q = r := by
    simp [engine_call_result, hfq]
  have hfin : final_state o q =
      (synthesize_node o
        { query := q
          routing_info := some (route_query chain q)
          sql_result := some (engine_call_result f q) }).1 := by
    simp only [final_state, h]
  have hcm : compute_metadata
      { query := q
        routing_info := some (route_query chain q)
        sql_result := some (engine_call_result f q) } =
      Except.ok { agents_used := ["sql"], query_type := "sql", confidence := c.confidence } := by
    simp [compute_metadata, hri]
  constructor
  · intro a hsucc hdata
    have hcf : compute_final_response o
        { query := q
          routing_info := some (route_query chain q)
          sql_result := some (engine_call_result f q) } = Except.ok a := by
      simp [compute_final_response, hecr, hsucc, hdata, data_answer_strict]
    constructor
    · show (final_state o q).final_response = some a
      rw [hfin]
      simp [synthesize_node, hcf, hcm]
    · show (final_state o q).metadata = some _
      rw [hfin]
      simp [synthesize_node, hcf, hcm]
  · intro msg hfail herr
    have hcf : compute_final_response o
        { query := q
          routing_info := some (route_query chain q)
          sql_result := some (engine_call_result f q) } =
        Except.ok ("Error: " ++ msg) := by
      simp [compute_final_response, hecr, hfail, herr]
    show (final_state o q).final_response = some ("Error: " ++ msg)
    rw [hfin]
    simp [synthesize_node, hcf, hcm]

/-- Structured classification chain used to instantiate C6. -/
def chainC6 : String → Except String QueryClassification := fun _ =>
  Except.ok { query_type := QueryType.sql, confidence := 1,
              reasoning := "aggregation query", suggested_agent := "sql" }

/-- Concrete orchestrator used to instantiate C6. -/
def orchC6 : Orchestrator :=
  { router := fun s => Except.ok (route_query chainC6 s)
    sql_agent := some (fun _ => Except.ok { success := true, data := some (some "42 videos") })
    vector_agent := some (fun _ => Except.ok { success := true, data := some (some "unused") })
    llm := fun _ => Except.ok "unused" }

theorem c6_witness :
    (process_query orchC6 "How many videos are there?").answer = some "42 videos" := by
  have h := c6_structured_passthrough chainC6 orchC6 "How many videos are there?" _ _ _
    rfl rfl rfl rfl rfl
  exact (h.1 "42 videos" rfl rfl).1

/-! Claim C10. -/

/-- C10: on the non-fatal path the success flag of process_query equals the
presence of final_response on the final workflow state; in particular, when
the single routed sql engine returns a failure, the answer is the engine
failure text "Error: ..." and success is still true. -/
theorem c10_success_tracks_final_response
    (o : Orchestrator) (q : String) (ri : RoutingInfo) (cv : Rat)
    (f : String → Except String EngineResult) (msg : String)
    (hro : o.router q = Except.ok ri) (hag : ri.agents = ["sql"])
    (hconf : ri.classification.confidence = some cv)
    (hsa : o.sql_agent = some f)
    (hfq : f q = Except.ok { success := false, data := none, error := some msg }) :
    (∀ (p : Orchestrator) (s : String),
        (process_query p s).success = ((final_state p s).final_response).isSome)
    ∧ (process_query o q).answer = some ("Error: " ++ msg)
    ∧ (process_query o q).success = true := by
  have hs : "sql" ∈ ri.agents := by
    simp [hag]
  have hv : "vector" ∉ ri.agents := by
    simp [hag]
  have h := run_workflow_sql_only_eq o q ri f hro hs hv hsa
  have hecr : engine_call_result f q =
      { success := false, data := none, error := some msg } := by
    simp [engine_call_result, hfq]
  have hfin : final_state o q =
      (synthesize_node o
        { query := q
          routing_info := some ri
          sql_result := some (engine_call_result f q) }).1 := by
    simp only [final_state, h]
  have hcf : compute_final_response o
      { query := q
        routing_info := some ri
        sql_result := some (engine_call_result f q) } =
      Except.ok ("Error: " ++ msg) := by
    simp [compute_final_response, hecr]
  have hcm : compute_metadata
      { query := q
        routing_info := some ri
        sql_result := some (engine_call_result f q) } =
      Except.ok { agents_used := ri.agents, query_type := ri.classification.type,
                  confidence := cv } := by
    simp [compute_metadata, hconf]
  have hans : (final_state o q).final_response = some ("Error: " ++ msg) := by
    rw [hfin]
    simp [synthesize_node, hcf, hcm]
  refine ⟨fun p s => rfl, hans, ?_⟩
  show ((final_state o q).final_response).isSome = true
  rw [hans]
  rfl

/-- Structured classification chain used to instantiate C10. -/
def chainC10 : String → Except String QueryClassification := fun _ =>
  Except.ok { query_type := QueryType.sql, confidence := 1,
              reasoning := "count query", suggested_agent := "sql" }

/-- Concrete orchestrator used to instantiate C10: the sql engine reports a
failure result. -/
def orchC10 : Orchestrator :=
  { router := fun s => Except.ok (route_query chainC10 s)
    sql_agent := some (fun _ => Except.ok { success := false, data := none, error := some "boom" })
    vector_agent := some (fun _ => Except.ok { success := true, data := some (some "unused") })
    llm := fun _ => Except.ok "unused" }

theorem c10_witness :
    (process_query orchC10 "How many videos trended twice?").answer = some ("Error: " ++ "boom")
    ∧ (process_query orchC10 "How many videos trended twice?").success = true := by
  have h := c10_success_tracks_final_response orchC10 "How many videos trended twice?" _
    1 _ "boom" rfl (by decide) (by decide) rfl rfl
  exact ⟨h.2.1, h.2.2⟩

/-! Claim C4. -/

/-- Hybrid classification chain used to instantiate C4. -/
def chainC4 : String → Except String QueryClassification := fun _ =>
  Except.ok { query_type := QueryType.hybrid, confidence := 1,
              reasoning := "ranking plus topic search", suggested_agent := "both" }

/-- Concrete orchestrator used to instantiate C4: both engines succeed and
the synthesis LLM raises. -/
def orchC4 : Orchestrator :=
  { router := fun s => Except.ok (route_query chainC4 s)
    sql_agent := some (fun _ => Except.ok { success := true, data := some (some "alpha") })
    vector_agent := some (fun _ => Except.ok { success := true, data := some (some "beta") })
    llm := fun _ => Except.error "LLM overloaded" }

/-- C4 counterexample: the deterministic fallback string of the hybrid
synthesiser begins with "SQL Analysis:", not with "Structured Analysis:" as
the claim states. -/
theorem c4_counterexample :
    (process_query orchC4 "top cooking videos this month").answer
      = some "SQL Analysis: alpha\n\nSemantic Search: beta"
    ∧ (process_query orchC4 "top cooking videos this month").answer
      ≠ some "Structured Analysis: alpha\n\nSemantic Search: beta" := by
  decide

/-- C4 (amended): in a hybrid run where both engine results carry data
dictionaries with answers a and b and the LLM merge step raises, the final
answer is the deterministic concatenation
"SQL Analysis: a\n\nSemantic Search: b", which is never empty. -/
theorem c4_hybrid_llm_failure_concatenation
    (o : Orchestrator) (q a b err : String) (ri : RoutingInfo) (cv : Rat)
    (f g : String → Except String EngineResult) (sr vr : EngineResult)
    (hro : o.router q = Except.ok ri)
    (hs : "sql" ∈ ri.agents) (hv : "vector" ∈ ri.agents)
    (hconf : ri.classification.confidence = some cv)
    (hsa : o.sql_agent = some f) (hva : o.vector_agent = some g)
    (hfq : f q = Except.ok sr) (hgq : g q = Except.ok vr)
    (hda : sr.data = some (some a)) (hdb : vr.data = some (some b))
    (hllm : o.llm (hybrid_prompt q a b) = Except.error err) :
    (process_query o q).answer
      = some ("SQL Analysis: " ++ a ++ "\n\nSemantic Search: " ++ b)
    ∧ (process_query o q).answer ≠ some "" := by
  have h := run_workflow_hybrid_eq o q ri f g hro hs hv hsa hva
  have hecrf : engine_call_result f q = sr := by
    simp [engine_call_result, hfq]
  have hecrg : engine_call_result g q = vr := by
    simp [engine_call_result, hgq]
  have hfin : final_state o q =
      (synthesize_node o
        { query := q
          routing_info := some ri
          sql_result := some (engine_call_result f q)
          vector_result := some (engine_call_result g q) }).1 := by
    simp only [final_state, h]
  have hcf : compute_final_response o
      { query := q
        routing_info := some ri
        sql_result := some (engine_call_result f q)
        vector_result := some (engine_call_result g q) } =
      Except.ok ("SQL Analysis: " ++ a ++ "\n\nSemantic Search: " ++ b) := by
    simp [compute_final_response, hecrf, hecrg, synthesize_hybrid_response,
          hda, hdb, data_answer, hllm]
  have hcm : compute_metadata
      { query := q
        routing_info := some ri
        sql_result := some (engine_call_result f q)
        vector_result := some (engine_call_result g q) } =
      Except.ok { agents_used := ri.agents, query_type := ri.classification.type,
                  confidence := cv } := by
    simp [compute_metadata, hconf]
  have hans : (process_query o q).answer
      = some ("SQL Analysis: " ++ a ++ "\n\nSemantic Search: " ++ b) := by
    show (final_state o q).final_response = _
    rw [hfin]
    simp [synthesize_node, hcf, hcm]
  refine ⟨hans, ?_⟩
  rw [hans]
  intro hcontra
  have h2 := congrArg String.length (Option.some_injective _ hcontra)
  simp [String.length_append] at h2
  exact absurd h2.1.1.1 (by decide)

theorem c4_witness :
    (process_query orchC4 "most liked videos about travel").answer
      = some ("SQL Analysis: " ++ "alpha" ++ "\n\nSemantic Search: " ++ "beta") := by
  have h := c4_hybrid_llm_failure_concatenation orchC4 "most liked videos about travel"
    "alpha" "beta" "LLM overloaded" _ 1 _ _ _ _
    rfl (by decide) (by decide) rfl rfl rfl rfl rfl rfl rfl rfl
  exact h.1

/-! Claim C5. -/

/-- Hybrid classification chain used to instantiate C5. -/
def chainC5 : String → Except String QueryClassification := fun _ =>
  Except.ok { query_type := QueryType.hybrid, confidence := 1,
              reasoning := "popularity filter over topic search", suggested_agent := "both" }

/-- Concrete orchestrator used to instantiate C5: the structured engine
returns the failure shape produced by BaseAgent.format_response (success
False, data None, error "boom") and the semantic engine succeeds. -/
def orchC5 : Orchestrator :=
  { router := fun s => Except.ok (route_query chainC5 s)
    sql_agent := some (fun _ =>
      Except.ok { success := false, data := some none, error := some "boom" })
    vector_agent := some (fun _ =>
      Except.ok { success := true, data := some (some "Found cooking videos: pasta and ramen") })
    llm := fun _ => Except.ok "merged insights" }

/-- C5: evaluation at the failing input.  With the structured engine failed
(data None) and the semantic engine successful, the hybrid synthesiser
crashes on sql_result.get("data").get("answer") (AttributeError on None),
its except-block f-string then raises NameError because sql_answer was never
bound, and the outer synthesis handler turns that into
"Error synthesizing response: name \x27sql_answer\x27 is not defined" — an
answer that contains none of the semantic engine text, while success is
reported true and metadata stays empty. -/
theorem c5_structured_failure_hybrid_loses_semantic_info :
    (process_query orchC5 "find popular cooking videos").answer
      = some "Error synthesizing response: name \x27sql_answer\x27 is not defined"
    ∧ (process_query orchC5 "find popular cooking videos").success = true
    ∧ (process_query orchC5 "find popular cooking videos").metadata = none := by
  decide

/-! Claim C8. -/

/-- Structured classification chain used to instantiate C8. -/
def chainC8 : String → Except String QueryClassification := fun _ =>
  Except.ok { query_type := QueryType.sql, confidence := 1,
              reasoning := "count query", suggested_agent := "sql" }

/-- Concrete orchestrator used to instantiate C8. -/
def orchC8 : Orchestrator :=
  { router := fun s => Except.ok (route_query chainC8 s)
    sql_agent := some (fun _ => Except.ok { success := true, data := some (some "there are 9 videos") })
    vector_agent := some (fun _ => Except.ok { success := true, data := some (some "unused") })
    llm := fun _ => Except.ok "unused" }

/-- C8 counterexample: the whitespace-only query " " is empty after trimming,
yet it is not rejected: classification is invoked on it, the workflow runs to
completion and the response reports success true with a normal answer and no
empty-query error. -/
theorem c8_counterexample :
    Ev.classify ∈ run_trace orchC8 " "
    ∧ (process_query orchC8 " ").success = true
    ∧ (process_query orchC8 " ").answer = some "there are 9 videos" := by
  decide

/-- C8 (amended): the orchestrator performs no emptiness validation of its
own — classification is invoked on every query string, including the empty
and the whitespace-only ones; the only rejection is the pydantic min_length 1
constraint on QueryRequest.query at the API boundary, which rejects exactly
the empty string and accepts whitespace-only queries because no trimming is
applied. -/
theorem c8_no_emptiness_validation
    (o : Orchestrator) (q : String) :
    Ev.classify ∈ run_trace o q
    ∧ query_request_valid "" = false
    ∧ query_request_valid " " = true := by
  exact ⟨classify_mem_run_trace o q, by decide, by decide⟩

/-! Claim C9. -/

/-- Unknown classification chain used to instantiate C9. -/
def chainC9 : String → Except String QueryClassification := fun _ =>
  Except.ok { query_type := QueryType.unknown, confidence := 0,
              reasoning := "unclear", suggested_agent := "none" }

/-- Concrete orchestrator used to instantiate C9. -/
def orchC9 : Orchestrator :=
  { router := fun s => Except.ok (route_query chainC9 s)
    sql_agent := some (fun _ => Except.ok { success := true, data := some (some "unused") })
    vector_agent := some (fun _ => Except.ok { success := true, data := some (some "unused") })
    llm := fun _ => Except.ok "unused" }

/-- C9 counterexample: the non-empty query below is classified unknown, so
process_query returns answer None (a null answer) and an empty metadata
dictionary in which query_type is not set. -/
theorem c9_counterexample :
    (process_query orchC9 "blargh nonsense").answer = none
    ∧ (process_query orchC9 "blargh nonsense").metadata = none := by
  decide

/-- When neither synthesis computation raises, the synthesis node records the
answer and the metadata on the state. -/
theorem synthesize_node_ok (o : Orchestrator) (s : AgentState) (ans : String)
    (m : SynthesisMetadata)
    (hcf : compute_final_response o s = Except.ok ans)
    (hcm : compute_metadata s = Except.ok m) :
    (synthesize_node o s).1 = { s with final_response := some ans, metadata := some m } := by
  simp [synthesize_node, hcf, hcm]

/-- C9 (amended): for every query whose classification is not unknown — so at
least one engine is routed — with both agents available and all engine
results well-shaped, process_query returns a non-null answer and metadata
whose query_type is the classification type.  (On the unknown path the
workflow ends before synthesis instead: the answer is None and the metadata
dictionary stays empty.) -/
theorem c9_routable_query_has_answer_and_query_type
    (chain : String → Except String QueryClassification)
    (o : Orchestrator) (q : String) (c : QueryClassification)
    (f g : String → Except String EngineResult)
    (hro : o.router q = Except.ok (route_query chain q))
    (hc : chain q = Except.ok c) (ht : c.query_type ≠ QueryType.unknown)
    (hsa : o.sql_agent = some f) (hva : o.vector_agent = some g)
    (hwff : ∀ r, f q = Except.ok r → well_formed_result r)
    (hwfg : ∀ r, g q = Except.ok r → well_formed_result r) :
    (process_query o q).answer.isSome = true
    ∧ (process_query o q).metadata.map SynthesisMetadata.query_type
        = some c.query_type.value := by
  have hcq : classify_query chain q = c := by
    simp [classify_query, hc]
  have hwfs := engine_call_result_wf f q hwff
  have hwfv := engine_call_result_wf g q hwfg
  cases hqt : c.query_type with
  | unknown => exact absurd hqt ht
  | sql =>
      have hri : route_query chain q =
          { query := some q
            classification :=
              { type := "sql", confidence := some c.confidence,
                reasoning := some c.reasoning, suggested_agent := some c.suggested_agent }
            agents := ["sql"]
            execution_strategy := some "single_agent" } := by
        simp [route_query, hcq, hqt, QueryType.value, determine_execution_strategy]
      have h := run_workflow_sql_only_eq o q (route_query chain q) f hro
        (by simp [hri]) (by simp [hri]) hsa
      have hfin : final_state o q =
          (synthesize_node o
            { query := q
              routing_info := some (route_query chain q)
              sql_result := some (engine_call_result f q) }).1 := by
        simp only [final_state, h]
      obtain ⟨ans, hcf⟩ := compute_final_response_ok_of_wf o
        { query := q
          routing_info := some (route_query chain q)
          sql_result := some (engine_call_result f q) }
        (fun r hr => Option.some.inj hr ▸ hwfs)
        (fun r hr => Option.noConfusion hr)
      have hcm : compute_metadata
          { query := q
            routing_info := some (route_query chain q)
            sql_result := some (engine_call_result f q) } =
          Except.ok { agents_used := ["sql"], query_type := "sql",
                      confidence := c.confidence } := by
        simp [compute_metadata, hri]
      have hnode := synthesize_node_ok o _ ans _ hcf hcm
      constructor
      · show ((final_state o q).final_response).isSome = true
        rw [hfin, hnode]
        rfl
      · show ((final_state o q).metadata).map SynthesisMetadata.query_type = _
        rw [hfin, hnode]
        simp [hqt, QueryType.value]
  | vector =>
      have hri : route_query chain q =
          { query := some q
            classification :=
              { type := "vector", confidence := some c.confidence,
                reasoning := some c.reasoning, suggested_agent := some c.suggested_agent }
            agents := ["vector"]
            execution_strategy := some "single_agent" } := by
        simp [route_query, hcq, hqt, QueryType.value, determine_execution_strategy]
      have h := run_workflow_vector_only_eq o q (route_query chain q) g hro
        (by simp [hri]) (by simp [hri]) hva
      have hfin : final_state o q =
          (synthesize_node o
            { query := q
              routing_info := some (route_query chain q)
              vector_result := some (engine_call_result g q) }).1 := by
        simp only [final_state, h]
      obtain ⟨ans, hcf⟩ := compute_final_response_ok_of_wf o
        { query := q
          routing_info := some (route_query chain q)
          vector_result := some (engine_call_result g q) }
        (fun r hr => Option.noConfusion hr)
        (fun r hr => Option.some.inj hr ▸ hwfv)
      have hcm : compute_metadata
          { query := q
            routing_info := some (route_query chain q)
            vector_result := some (engine_call_result g q) } =
          Except.ok { agents_used := ["vector"], query_type := "vector",
                      confidence := c.confidence } := by
        simp [compute_metadata, hri]
      have hnode := synthesize_node_ok o _ ans _ hcf hcm
      constructor
      · show ((final_state o q).final_response).isSome = true
        rw [hfin, hnode]
        rfl
      · show ((final_state o q).metadata).map SynthesisMetadata.query_type = _
        rw [hfin, hnode]
        simp [hqt, QueryType.value]
  | hybrid =>
      have hri : route_query chain q =
          { query := some q
            classification :=
              { type := "hybrid", confidence := some c.confidence,
                reasoning := some c.reasoning, suggested_agent := some c.suggested_agent }
            agents := ["sql", "vector"]
            execution_strategy := some "multi_agent_parallel" } := by
        simp [route_query, hcq, hqt, QueryType.value, determine_execution_strategy]
      have h := run_workflow_hybrid_eq o q (route_query chain q) f g hro
        (by simp [hri]) (by simp [hri]) hsa hva
      have hfin : final_state o q =
          (synthesize_node o
            { query := q
              routing_info := some (route_query chain q)
              sql_result := some (engine_call_result f q)
              vector_result := some (engine_call_result g q) }).1 := by
        simp only [final_state, h]
      obtain ⟨ans, hcf⟩ := compute_final_response_ok_of_wf o
        { query := q
          routing_info := some (route_query chain q)
          sql_result := some (engine_call_result f q)
          vector_result := some (engine_call_result g q) }
        (fun r hr => Option.some.inj hr ▸ hwfs)
        (fun r hr => Option.some.inj hr ▸ hwfv)
      have hcm : compute_metadata
          { query := q
            routing_info := some (route_query chain q)
            sql_result := some (engine_call_result f q)
            vector_result := some (engine_call_result g q) } =
          Except.ok { agents_used := ["sql", "vector"], query_type := "hybrid",
                      confidence := c.confidence } := by
        simp [compute_metadata, hri]
      have hnode := synthesize_node_ok o _ ans _ hcf hcm
      constructor
      · show ((final_state o q).final_response).isSome = true
        rw [hfin, hnode]
        rfl
      · show ((final_state o q).metadata).map SynthesisMetadata.query_type = _
        rw [hfin, hnode]
        simp [hqt, QueryType.value]

/-- Semantic classification chain used to instantiate C9. -/
def chainC9w : String → Except String QueryClassification := fun _ =>
  Except.ok { query_type := QueryType.vector, confidence := 1,
              reasoning := "topic search", suggested_agent := "vector" }

/-- Concrete orchestrator used to instantiate the amended C9. -/
def orchC9w : Orchestrator :=
  { router := fun s => Except.ok (route_query chainC9w s)
    sql_agent := some (fun _ => Except.ok { success := true, data := some (some "unused") })
    vector_agent := some (fun _ => Except.ok { success := true, data := some (some "Found 4 travel vlogs") })
    llm := fun _ => Except.ok "unused" }

theorem c9_witness :
    (process_query orchC9w "find travel vlogs").answer.isSome = true
    ∧ (process_query orchC9w "find travel vlogs").metadata.map SynthesisMetadata.query_type
        = some "vector" := by
  have h := c9_routable_query_has_answer_and_query_type chainC9w orchC9w "find travel vlogs"
    _ _ _ rfl rfl (by decide) rfl rfl
    (by intro r hr
        simp only [Except.ok.injEq] at hr
        subst hr
        exact ⟨by simp, fun _ => ⟨"unused", rfl⟩⟩)
    (by intro r hr
        simp only [Except.ok.injEq] at hr
        subst hr
        exact ⟨by simp, fun _ => ⟨"Found 4 travel vlogs", rfl⟩⟩)
  exact ⟨h.1, h.2⟩

end YTTrends
